import Mathlib

/-!
Shallow embedding of the autonomous-agent behaviour engine of the
neon-velocity racing game (source file `ai.js`): the `AICar` class with its
finite-state machine (CRUISE / DODGE / ACCELERATE / OVERTAKE / BLOCK),
rubber-band regulator, hazard scanner, lane-occupancy query, lane-change
planners and movement integrator.

Modelling conventions:
* JS numbers are modelled as `ℚ` (all constants in the source are exact
  decimals); lane indices as `ℤ` (so out-of-range guards are meaningful).
* `Math.random()` calls are modelled as explicit arguments `r : ℚ` with the
  hypothesis `0 ≤ r ∧ r < 1` where the value range matters.
* JS reference identity `p !== this` in the peer roster is modelled as
  structural inequality on the agent record.
* `laneCenters[i]` is modelled as `List.getD i 0`; every access in the
  engine uses an index in {0,1,2} (see the lane-bound invariant).
-/

namespace Neon

inductive AIState where
  | CRUISE
  | DODGE
  | ACCELERATE
  | OVERTAKE
  | BLOCK
deriving DecidableEq, Repr

/-- Player snapshot `{x, y, lane}` passed to the AI each tick. -/
structure Player where
  x : ℚ
  y : ℚ
  lane : ℤ
deriving DecidableEq, Repr

/-- Any object with `(x, y, width)` the hazard scanner can see. -/
structure Obstacle where
  x : ℚ
  y : ℚ
  width : ℚ
deriving DecidableEq, Repr

/-- The mutable fields of an `AICar` instance (rendering-only fields such as
`color` are omitted; no claim mentions them). -/
structure AICar where
  laneCenters : List ℚ
  lane : ℤ
  x : ℚ
  y : ℚ
  width : ℚ
  height : ℚ
  state : AIState
  stateTimer : ℚ
  aggression : ℚ
  reactionTime : ℚ
  reactionTimer : ℚ
  targetLane : ℤ
  laneChangeCooldown : ℚ
  LANE_CHANGE_COOLDOWN : ℚ
  LATERAL_SPEED : ℚ
  lookAhead : ℚ
  rubberBandMult : ℚ
  playerBehind : Bool
  blockTimer : ℚ
deriving DecidableEq, Repr

/-- `new AICar(lane, y, laneCenters)`; `aggressionRand` and `reactionRand`
are the two `Math.random()` draws of the constructor. -/
def AICar.make (lane : ℤ) (y : ℚ) (laneCenters : List ℚ)
    (aggressionRand reactionRand : ℚ) : AICar where
  laneCenters := laneCenters
  lane := lane
  x := laneCenters.getD lane.toNat 0
  y := y
  width := 36
  height := 62
  state := .CRUISE
  stateTimer := 0
  aggression := 0.4 + aggressionRand * 0.55
  reactionTime := reactionRand * 0.12
  reactionTimer := 0
  targetLane := lane
  laneChangeCooldown := 0
  LANE_CHANGE_COOLDOWN := 0.75
  LATERAL_SPEED := 650
  lookAhead := 130
  rubberBandMult := 1.0
  playerBehind := false
  blockTimer := 0

/-- `_respawnAbove(player)`; `r1` is the `Math.random()` draw for the
vertical offset, `r2` the draw for the fresh lane. -/
def respawnAbove (a : AICar) (player : Player) (r1 r2 : ℚ) : AICar :=
  let newLane : ℤ := ⌊r2 * 3⌋
  { a with
    y := player.y - 740 - r1 * 300
    lane := newLane
    targetLane := newLane
    x := a.laneCenters.getD newLane.toNat 0
    state := .CRUISE
    playerBehind := false }

/-- `_updateRubberBand(player, gameSpeed)` (the `gameSpeed` parameter is
unused in the source body). -/
def updateRubberBand (a : AICar) (player : Player) (r1 r2 : ℚ) : AICar :=
  let delta := a.y - player.y
  if delta > 220 then
    { a with rubberBandMult := 0.82 }
  else if delta < -80 then
    { respawnAbove a player r1 r2 with rubberBandMult := 1.0 }
  else
    { a with rubberBandMult := 1.0 }

/-- `_scanObstacle(obstacles)`: hazard trigger against the agent's current
`x`, with horizontal threshold `width * 0.6 + o.width * 0.4`. -/
def scanObstacle (a : AICar) (obstacles : List Obstacle) : Bool :=
  obstacles.any fun o =>
    decide (|o.x - a.x| < a.width * 0.6 + o.width * 0.4) &&
    decide (o.y > a.y - a.lookAhead) &&
    decide (o.y < a.y + a.height)

/-- The per-lane hazard test inlined in `_dodge` (`hasObstacle`): horizontal
threshold `width * 0.5 + o.width * 0.4` against the lane center. -/
def laneBlocked (a : AICar) (l : ℤ) (obstacles : List Obstacle) : Bool :=
  let lx := a.laneCenters.getD l.toNat 0
  obstacles.any fun o =>
    decide (|o.x - lx| < a.width * 0.5 + o.width * 0.4) &&
    decide (o.y > a.y - a.lookAhead) &&
    decide (o.y < a.y + a.height)

/-- `_laneOccupied(l, peers)`. -/
def laneOccupied (a : AICar) (l : ℤ) (peers : List AICar) : Bool :=
  let lx := a.laneCenters.getD l.toNat 0
  peers.any fun p =>
    decide (p ≠ a) &&
    decide (|p.y - a.y| < 80) &&
    (decide (|p.x - lx| < 44) || decide (p.targetLane = l))

/-- `_changeLane(newLane)`. -/
def changeLane (newLane : ℤ) (a : AICar) : AICar :=
  if newLane < 0 ∨ newLane > 2 ∨ newLane = a.targetLane then a
  else { a with
         targetLane := newLane
         laneChangeCooldown := a.LANE_CHANGE_COOLDOWN }

/-- Head of `safeLanes.sort((x, y) => |x - lane| - |y - lane|)` in `_dodge`:
the stable ascending sort puts first the earliest element attaining the
minimal distance to `lane`, which this left fold computes directly. -/
def pickClosest (lane : ℤ) : List ℤ → Option ℤ
  | [] => none
  | h :: t =>
      some (t.foldl (fun best l => if |l - lane| < |best - lane| then l else best) h)

/-- `freeLanes.reduce((x, y) => |x - lane| < |y - lane| ? x : y)` in
`_planOvertake`; on a tie the accumulator is replaced (the later element
wins), exactly as the source conditional does. -/
def reduceClosest (lane : ℤ) : List ℤ → Option ℤ
  | [] => none
  | h :: t =>
      some (t.foldl (fun acc b => if |acc - lane| < |b - lane| then acc else b) h)

/-- `_dodge(obstacles, peers)`. -/
def dodge (a : AICar) (obstacles : List Obstacle) (peers : List AICar) : AICar :=
  if a.laneChangeCooldown > 0 then a
  else
    let safeLanes := ([0, 1, 2] : List ℤ).filter fun l =>
      !(laneBlocked a l obstacles) && !(laneOccupied a l peers)
    (pickClosest a.lane safeLanes).elim a fun l => changeLane l a

/-- `_planOvertake(player, peers)`. -/
def planOvertake (a : AICar) (player : Player) (peers : List AICar) : AICar :=
  if a.laneChangeCooldown > 0 then a
  else
    let freeLanes := ([0, 1, 2] : List ℤ).filter fun l =>
      decide (l ≠ player.lane) && !(laneOccupied a l peers)
    (reduceClosest a.lane freeLanes).elim a fun l => changeLane l a

/-- `_planBlock(player, peers)`. -/
def planBlock (a : AICar) (player : Player) (peers : List AICar) : AICar :=
  if a.laneChangeCooldown > 0 then a
  else if laneOccupied a player.lane peers then a
  else changeLane player.lane a

/-- `_think(player, obstacles, peers)`. -/
def think (a : AICar) (player : Player) (obstacles : List Obstacle)
    (peers : List AICar) : AICar :=
  let b := { a with reactionTimer := a.reactionTime }
  if scanObstacle b obstacles = true ∧ b.state ≠ AIState.DODGE then
    dodge { b with state := .DODGE, stateTimer := 1.2 } obstacles peers
  else if b.y - player.y < -40 then
    { b with state := .ACCELERATE, stateTimer := 0.6 }
  else if |b.y - player.y| < 140 ∧ b.aggression > 0.82 ∧
          b.state ≠ AIState.BLOCK ∧ b.blockTimer ≤ 0 then
    planBlock { b with state := .BLOCK, stateTimer := 1.4, blockTimer := 3.0 }
      player peers
  else if |b.y - player.y| < 140 ∧ b.aggression > 0.65 ∧
          b.state ≠ AIState.OVERTAKE then
    planOvertake { b with state := .OVERTAKE, stateTimer := 1.0 } player peers
  else
    let c := if b.blockTimer > 0 then
        { b with blockTimer := b.blockTimer - (b.reactionTime + 0.001) }
      else b
    if c.stateTimer ≤ 0 then { c with state := .CRUISE } else c

/-- `_applyMovement(dt, gameSpeed)`. -/
def applyMovement (a : AICar) (dt gameSpeed : ℚ) : AICar :=
  let v1 := a.rubberBandMult
  let v2 := if a.state = AIState.ACCELERATE then v1 * 1.18 else v1
  let vMult := if a.state = AIState.BLOCK then v2 * 1.05 else v2
  let relSpeed := gameSpeed * (vMult - 1.0)
  let newY := a.y + relSpeed * dt
  let targetX := a.laneCenters.getD a.targetLane.toNat 0
  let dx := targetX - a.x
  let step := a.LATERAL_SPEED * dt
  if |dx| ≤ step then
    { a with y := newY, x := targetX, lane := a.targetLane }
  else
    { a with y := newY,
             x := a.x + (if dx > 0 then step else if dx < 0 then -step else 0) }

/-- `update(dt, gameSpeed, player, obstacles, peers)`; `r1 r2` are the
`Math.random()` draws a respawn inside this tick would consume. -/
def update (a : AICar) (dt gameSpeed : ℚ) (player : Player)
    (obstacles : List Obstacle) (peers : List AICar) (r1 r2 : ℚ) : AICar :=
  let speedT := min ((gameSpeed - 200) / 400) 1
  let b := { a with
             lookAhead := 130 + speedT * 90
             LANE_CHANGE_COOLDOWN := max 0.8 (1.5 - speedT * 0.5)
             reactionTime := max 0 (a.reactionTime * (1 - speedT * 0.3)) }
  let c := { b with stateTimer := b.stateTimer - dt }
  let d := if c.laneChangeCooldown > 0 then
      { c with laneChangeCooldown := c.laneChangeCooldown - dt }
    else c
  let e := updateRubberBand d player r1 r2
  let f := if e.reactionTimer > 0 then
      { e with reactionTimer := e.reactionTimer - dt }
    else think e player obstacles peers
  applyMovement f dt gameSpeed

/-- `scroll(amount)`. -/
def scroll (a : AICar) (amount : ℚ) : AICar :=
  { a with y := a.y + amount }

end Neon

namespace Neon

/-! ### The lane-bound invariant and the operation alphabet -/

/-- `lane ∈ {0,1,2}` and `targetLane ∈ {0,1,2}`. -/
def laneInv (a : AICar) : Prop :=
  0 ≤ a.lane ∧ a.lane ≤ 2 ∧ 0 ≤ a.targetLane ∧ a.targetLane ≤ 2

/-- The operations the orchestrator can apply to an agent: a full `update`
tick, a `scroll`, or a bare rubber-band regulator pass. -/
inductive Op where
  | upd (dt gameSpeed : ℚ) (player : Player) (obstacles : List Obstacle)
        (peers : List AICar) (r1 r2 : ℚ)
  | scr (amount : ℚ)
  | reg (player : Player) (r1 r2 : ℚ)

def Op.apply : Op → AICar → AICar
  | .upd dt gs p obs peers r1 r2, a => update a dt gs p obs peers r1 r2
  | .scr amount, a => scroll a amount
  | .reg p r1 r2, a => updateRubberBand a p r1 r2

/-- The random draw a respawn would consume is a `Math.random()` value. -/
def Op.validRand : Op → Prop
  | .upd _ _ _ _ _ _ r2 => 0 ≤ r2 ∧ r2 < 1
  | .scr _ => True
  | .reg _ _ r2 => 0 ≤ r2 ∧ r2 < 1

def runOps (ops : List Op) (a : AICar) : AICar :=
  ops.foldl (fun x op => op.apply x) a

/-! ### Case-analysis and frame lemmas -/

theorem changeLane_cases (n : ℤ) (a : AICar) :
    changeLane n a = a ∨
      (¬ (n < 0 ∨ n > 2 ∨ n = a.targetLane) ∧
        changeLane n a =
          { a with targetLane := n, laneChangeCooldown := a.LANE_CHANGE_COOLDOWN }) := by
  unfold changeLane
  split
  next h => exact Or.inl rfl
  next h => exact Or.inr ⟨h, rfl⟩

theorem changeLane_pres (n : ℤ) (a : AICar) :
    (changeLane n a).lane = a.lane ∧ (changeLane n a).state = a.state ∧
    (changeLane n a).stateTimer = a.stateTimer ∧
    (changeLane n a).blockTimer = a.blockTimer ∧
    (changeLane n a).aggression = a.aggression ∧
    (changeLane n a).reactionTime = a.reactionTime ∧
    (changeLane n a).LANE_CHANGE_COOLDOWN = a.LANE_CHANGE_COOLDOWN := by
  rcases changeLane_cases n a with h | ⟨-, h⟩ <;> rw [h] <;>
    exact ⟨rfl, rfl, rfl, rfl, rfl, rfl, rfl⟩

theorem option_elim_cases {α β : Type} (o : Option α) (b : β) (f : α → β) :
    o.elim b f = b ∨ ∃ x, o.elim b f = f x := by
  cases o with
  | none => exact Or.inl rfl
  | some x => exact Or.inr ⟨x, rfl⟩

theorem dodge_cases (a : AICar) (obstacles : List Obstacle) (peers : List AICar) :
    dodge a obstacles peers = a ∨ ∃ l, dodge a obstacles peers = changeLane l a := by
  unfold dodge
  split
  next => exact Or.inl rfl
  next => exact option_elim_cases _ a _

theorem planOvertake_cases (a : AICar) (player : Player) (peers : List AICar) :
    planOvertake a player peers = a ∨
      ∃ l, planOvertake a player peers = changeLane l a := by
  unfold planOvertake
  split
  next => exact Or.inl rfl
  next => exact option_elim_cases _ a _

theorem planBlock_cases (a : AICar) (player : Player) (peers : List AICar) :
    planBlock a player peers = a ∨
      planBlock a player peers = changeLane player.lane a := by
  unfold planBlock
  split
  next => exact Or.inl rfl
  next =>
    split
    next => exact Or.inl rfl
    next => exact Or.inr rfl

theorem dodge_pres (a : AICar) (obstacles : List Obstacle) (peers : List AICar) :
    (dodge a obstacles peers).lane = a.lane ∧
    (dodge a obstacles peers).state = a.state ∧
    (dodge a obstacles peers).stateTimer = a.stateTimer ∧
    (dodge a obstacles peers).blockTimer = a.blockTimer ∧
    (dodge a obstacles peers).aggression = a.aggression ∧
    (dodge a obstacles peers).reactionTime = a.reactionTime ∧
    (dodge a obstacles peers).LANE_CHANGE_COOLDOWN = a.LANE_CHANGE_COOLDOWN := by
  rcases dodge_cases a obstacles peers with h | ⟨l, h⟩ <;> rw [h]
  · exact ⟨rfl, rfl, rfl, rfl, rfl, rfl, rfl⟩
  · exact changeLane_pres l a

theorem planOvertake_pres (a : AICar) (player : Player) (peers : List AICar) :
    (planOvertake a player peers).lane = a.lane ∧
    (planOvertake a player peers).state = a.state ∧
    (planOvertake a player peers).stateTimer = a.stateTimer ∧
    (planOvertake a player peers).blockTimer = a.blockTimer ∧
    (planOvertake a player peers).aggression = a.aggression ∧
    (planOvertake a player peers).reactionTime = a.reactionTime ∧
    (planOvertake a player peers).LANE_CHANGE_COOLDOWN = a.LANE_CHANGE_COOLDOWN := by
  rcases planOvertake_cases a player peers with h | ⟨l, h⟩ <;> rw [h]
  · exact ⟨rfl, rfl, rfl, rfl, rfl, rfl, rfl⟩
  · exact changeLane_pres l a

theorem planBlock_pres (a : AICar) (player : Player) (peers : List AICar) :
    (planBlock a player peers).lane = a.lane ∧
    (planBlock a player peers).state = a.state ∧
    (planBlock a player peers).stateTimer = a.stateTimer ∧
    (planBlock a player peers).blockTimer = a.blockTimer ∧
    (planBlock a player peers).aggression = a.aggression ∧
    (planBlock a player peers).reactionTime = a.reactionTime ∧
    (planBlock a player peers).LANE_CHANGE_COOLDOWN = a.LANE_CHANGE_COOLDOWN := by
  rcases planBlock_cases a player peers with h | h <;> rw [h]
  · exact ⟨rfl, rfl, rfl, rfl, rfl, rfl, rfl⟩
  · exact changeLane_pres player.lane a

end Neon

namespace Neon

theorem dodge_cooldown_noop (a : AICar) (obstacles : List Obstacle)
    (peers : List AICar) (h : a.laneChangeCooldown > 0) :
    dodge a obstacles peers = a := by
  unfold dodge
  rw [if_pos h]

theorem planOvertake_cooldown_noop (a : AICar) (player : Player)
    (peers : List AICar) (h : a.laneChangeCooldown > 0) :
    planOvertake a player peers = a := by
  unfold planOvertake
  rw [if_pos h]

theorem planBlock_cooldown_noop (a : AICar) (player : Player)
    (peers : List AICar) (h : a.laneChangeCooldown > 0) :
    planBlock a player peers = a := by
  unfold planBlock
  rw [if_pos h]

theorem changeLane_laneInv (n : ℤ) (a : AICar) (h : laneInv a) :
    laneInv (changeLane n a) := by
  rcases changeLane_cases n a with hc | ⟨hg, hc⟩ <;> rw [hc]
  · exact h
  · push_neg at hg
    obtain ⟨h1, h2, -, -⟩ := h
    exact ⟨h1, h2, hg.1, by simpa using hg.2.1⟩

theorem respawnAbove_laneInv (a : AICar) (player : Player) (r1 r2 : ℚ)
    (h0 : 0 ≤ r2) (h1 : r2 < 1) :
    laneInv (respawnAbove a player r1 r2) := by
  have hlow : (0 : ℤ) ≤ ⌊r2 * 3⌋ := by
    rw [Int.le_floor]
    push_cast
    nlinarith
  have hhigh : ⌊r2 * 3⌋ ≤ 2 := by
    have : ⌊r2 * 3⌋ < 3 := by
      rw [Int.floor_lt]
      push_cast
      nlinarith
    omega
  exact ⟨hlow, hhigh, hlow, hhigh⟩

theorem updateRubberBand_laneInv (a : AICar) (player : Player) (r1 r2 : ℚ)
    (h0 : 0 ≤ r2) (h1 : r2 < 1) (h : laneInv a) :
    laneInv (updateRubberBand a player r1 r2) := by
  unfold updateRubberBand
  dsimp only
  split
  · exact h
  · split
    · exact respawnAbove_laneInv a player r1 r2 h0 h1
    · exact h

theorem dodge_laneInv (a : AICar) (obstacles : List Obstacle)
    (peers : List AICar) (h : laneInv a) : laneInv (dodge a obstacles peers) := by
  rcases dodge_cases a obstacles peers with hc | ⟨l, hc⟩ <;> rw [hc]
  · exact h
  · exact changeLane_laneInv l a h

theorem planOvertake_laneInv (a : AICar) (player : Player)
    (peers : List AICar) (h : laneInv a) : laneInv (planOvertake a player peers) := by
  rcases planOvertake_cases a player peers with hc | ⟨l, hc⟩ <;> rw [hc]
  · exact h
  · exact changeLane_laneInv l a h

theorem planBlock_laneInv (a : AICar) (player : Player)
    (peers : List AICar) (h : laneInv a) : laneInv (planBlock a player peers) := by
  rcases planBlock_cases a player peers with hc | hc <;> rw [hc]
  · exact h
  · exact changeLane_laneInv player.lane a h

theorem think_laneInv (a : AICar) (player : Player) (obstacles : List Obstacle)
    (peers : List AICar) (h : laneInv a) : laneInv (think a player obstacles peers) := by
  unfold think
  dsimp only
  split
  · exact dodge_laneInv _ obstacles peers h
  · split
    · exact h
    · split
      · exact planBlock_laneInv _ player peers h
      · split
        · exact planOvertake_laneInv _ player peers h
        · split <;> split <;> exact h

theorem applyMovement_laneInv (a : AICar) (dt gameSpeed : ℚ) (h : laneInv a) :
    laneInv (applyMovement a dt gameSpeed) := by
  obtain ⟨h1, h2, h3, h4⟩ := h
  unfold applyMovement
  dsimp only
  split
  · exact ⟨h3, h4, h3, h4⟩
  · exact ⟨h1, h2, h3, h4⟩

theorem reactionGate_laneInv (e : AICar) (dt : ℚ) (player : Player)
    (obstacles : List Obstacle) (peers : List AICar) (he : laneInv e) :
    laneInv (if e.reactionTimer > 0 then { e with reactionTimer := e.reactionTimer - dt }
             else think e player obstacles peers) := by
  split
  · exact he
  · exact think_laneInv e player obstacles peers he

theorem update_laneInv (a : AICar) (dt gameSpeed : ℚ) (player : Player)
    (obstacles : List Obstacle) (peers : List AICar) (r1 r2 : ℚ)
    (h0 : 0 ≤ r2) (h1 : r2 < 1) (h : laneInv a) :
    laneInv (update a dt gameSpeed player obstacles peers r1 r2) := by
  unfold update
  dsimp only
  apply applyMovement_laneInv
  apply reactionGate_laneInv
  apply updateRubberBand_laneInv _ _ _ _ h0 h1
  split <;> exact h

theorem scroll_laneInv (a : AICar) (amount : ℚ) (h : laneInv a) :
    laneInv (scroll a amount) := h

end Neon

namespace Neon

theorem op_apply_laneInv (op : Op) (a : AICar) (hv : op.validRand)
    (h : laneInv a) : laneInv (op.apply a) := by
  cases op with
  | upd dt gs p obs peers r1 r2 =>
      exact update_laneInv a dt gs p obs peers r1 r2 hv.1 hv.2 h
  | scr amount => exact scroll_laneInv a amount h
  | reg p r1 r2 => exact updateRubberBand_laneInv a p r1 r2 hv.1 hv.2 h

theorem runOps_laneInv (ops : List Op) (a : AICar)
    (hv : ∀ op ∈ ops, op.validRand) (h : laneInv a) :
    laneInv (runOps ops a) := by
  induction ops generalizing a with
  | nil => exact h
  | cons op t ih =>
      have step : laneInv (op.apply a) :=
        op_apply_laneInv op a (hv op (List.mem_cons_self op t)) h
      have hvt : ∀ o ∈ t, Op.validRand o := fun o ho => hv o (List.mem_cons_of_mem op ho)
      exact ih (op.apply a) hvt step

theorem make_laneInv (lane : ℤ) (y : ℚ) (lc : List ℚ) (ra rr : ℚ)
    (h0 : 0 ≤ lane) (h2 : lane ≤ 2) : laneInv (AICar.make lane y lc ra rr) :=
  ⟨h0, h2, h0, h2⟩

end Neon

namespace Neon

theorem think_cooldown_targetLane (a : AICar) (player : Player)
    (obstacles : List Obstacle) (peers : List AICar)
    (h : a.laneChangeCooldown > 0) :
    (think a player obstacles peers).targetLane = a.targetLane := by
  unfold think
  dsimp only
  split
  · refine (congrArg AICar.targetLane (dodge_cooldown_noop _ obstacles peers ?_)).trans rfl
    exact h
  · split
    · rfl
    · split
      · refine (congrArg AICar.targetLane (planBlock_cooldown_noop _ player peers ?_)).trans rfl
        exact h
      · split
        · refine (congrArg AICar.targetLane (planOvertake_cooldown_noop _ player peers ?_)).trans rfl
          exact h
        · split <;> split <;> rfl

theorem think_dodge_priority (a : AICar) (player : Player)
    (obstacles : List Obstacle) (peers : List AICar)
    (h1 : a.state ≠ AIState.DODGE) (h2 : scanObstacle a obstacles = true) :
    (think a player obstacles peers).state = AIState.DODGE := by
  unfold think
  dsimp only
  split
  next hc =>
    rw [(dodge_pres _ obstacles peers).2.1]
  next hc =>
    exact absurd ⟨h2, h1⟩ hc

end Neon

namespace Neon

theorem updateRubberBand_pres (a : AICar) (player : Player) (r1 r2 : ℚ) :
    (updateRubberBand a player r1 r2).aggression = a.aggression ∧
    (updateRubberBand a player r1 r2).reactionTime = a.reactionTime ∧
    (updateRubberBand a player r1 r2).LANE_CHANGE_COOLDOWN = a.LANE_CHANGE_COOLDOWN := by
  unfold updateRubberBand respawnAbove
  dsimp only
  refine ⟨?_, ?_, ?_⟩
  all_goals
    split
    · rfl
    · split <;> rfl

theorem applyMovement_pres (a : AICar) (dt gameSpeed : ℚ) :
    (applyMovement a dt gameSpeed).aggression = a.aggression ∧
    (applyMovement a dt gameSpeed).reactionTime = a.reactionTime ∧
    (applyMovement a dt gameSpeed).LANE_CHANGE_COOLDOWN = a.LANE_CHANGE_COOLDOWN ∧
    (applyMovement a dt gameSpeed).state = a.state ∧
    (applyMovement a dt gameSpeed).targetLane = a.targetLane ∧
    (applyMovement a dt gameSpeed).laneChangeCooldown = a.laneChangeCooldown := by
  unfold applyMovement
  dsimp only
  refine ⟨?_, ?_, ?_, ?_, ?_, ?_⟩
  all_goals split <;> rfl

theorem think_aggression (a : AICar) (player : Player) (obstacles : List Obstacle)
    (peers : List AICar) :
    (think a player obstacles peers).aggression = a.aggression := by
  unfold think
  dsimp only
  split
  · exact ((dodge_pres _ obstacles peers).2.2.2.2.1).trans rfl
  · split
    · rfl
    · split
      · exact ((planBlock_pres _ player peers).2.2.2.2.1).trans rfl
      · split
        · exact ((planOvertake_pres _ player peers).2.2.2.2.1).trans rfl
        · split <;> split <;> rfl

theorem think_reactionTime (a : AICar) (player : Player) (obstacles : List Obstacle)
    (peers : List AICar) :
    (think a player obstacles peers).reactionTime = a.reactionTime := by
  unfold think
  dsimp only
  split
  · exact ((dodge_pres _ obstacles peers).2.2.2.2.2.1).trans rfl
  · split
    · rfl
    · split
      · exact ((planBlock_pres _ player peers).2.2.2.2.2.1).trans rfl
      · split
        · exact ((planOvertake_pres _ player peers).2.2.2.2.2.1).trans rfl
        · split <;> split <;> rfl

theorem think_LANE_CHANGE_COOLDOWN (a : AICar) (player : Player)
    (obstacles : List Obstacle) (peers : List AICar) :
    (think a player obstacles peers).LANE_CHANGE_COOLDOWN = a.LANE_CHANGE_COOLDOWN := by
  unfold think
  dsimp only
  split
  · exact ((dodge_pres _ obstacles peers).2.2.2.2.2.2).trans rfl
  · split
    · rfl
    · split
      · exact ((planBlock_pres _ player peers).2.2.2.2.2.2).trans rfl
      · split
        · exact ((planOvertake_pres _ player peers).2.2.2.2.2.2).trans rfl
        · split <;> split <;> rfl

theorem updateRubberBand_aggression (a : AICar) (player : Player) (r1 r2 : ℚ) :
    (updateRubberBand a player r1 r2).aggression = a.aggression :=
  (updateRubberBand_pres a player r1 r2).1

theorem updateRubberBand_reactionTime (a : AICar) (player : Player) (r1 r2 : ℚ) :
    (updateRubberBand a player r1 r2).reactionTime = a.reactionTime :=
  (updateRubberBand_pres a player r1 r2).2.1

theorem updateRubberBand_LCC (a : AICar) (player : Player) (r1 r2 : ℚ) :
    (updateRubberBand a player r1 r2).LANE_CHANGE_COOLDOWN = a.LANE_CHANGE_COOLDOWN :=
  (updateRubberBand_pres a player r1 r2).2.2

theorem applyMovement_aggression (a : AICar) (dt gameSpeed : ℚ) :
    (applyMovement a dt gameSpeed).aggression = a.aggression :=
  (applyMovement_pres a dt gameSpeed).1

theorem applyMovement_reactionTime (a : AICar) (dt gameSpeed : ℚ) :
    (applyMovement a dt gameSpeed).reactionTime = a.reactionTime :=
  (applyMovement_pres a dt gameSpeed).2.1

theorem applyMovement_LCC (a : AICar) (dt gameSpeed : ℚ) :
    (applyMovement a dt gameSpeed).LANE_CHANGE_COOLDOWN = a.LANE_CHANGE_COOLDOWN :=
  (applyMovement_pres a dt gameSpeed).2.2.1

theorem update_aggression (a : AICar) (dt gameSpeed : ℚ) (player : Player)
    (obstacles : List Obstacle) (peers : List AICar) (r1 r2 : ℚ) :
    (update a dt gameSpeed player obstacles peers r1 r2).aggression = a.aggression := by
  unfold update
  simp only [apply_ite AICar.aggression, applyMovement_aggression, think_aggression,
    updateRubberBand_aggression, ite_self]

theorem update_reactionTime (a : AICar) (dt gameSpeed : ℚ) (player : Player)
    (obstacles : List Obstacle) (peers : List AICar) (r1 r2 : ℚ) :
    (update a dt gameSpeed player obstacles peers r1 r2).reactionTime
      = max 0 (a.reactionTime * (1 - min ((gameSpeed - 200) / 400) 1 * 0.3)) := by
  unfold update
  simp only [apply_ite AICar.reactionTime, applyMovement_reactionTime, think_reactionTime,
    updateRubberBand_reactionTime, ite_self]

theorem update_LANE_CHANGE_COOLDOWN (a : AICar) (dt gameSpeed : ℚ) (player : Player)
    (obstacles : List Obstacle) (peers : List AICar) (r1 r2 : ℚ) :
    (update a dt gameSpeed player obstacles peers r1 r2).LANE_CHANGE_COOLDOWN
      = max 0.8 (1.5 - min ((gameSpeed - 200) / 400) 1 * 0.5) := by
  unfold update
  simp only [apply_ite AICar.LANE_CHANGE_COOLDOWN, applyMovement_LCC,
    think_LANE_CHANGE_COOLDOWN, updateRubberBand_LCC, ite_self]

end Neon

namespace Neon

/-! ### Claim C1 — rubber-band reset -/

def c1car : AICar := AICar.make 0 0 [60, 160, 260] 0 0
def c1player : Player := ⟨60, 600, 0⟩

/-- C1 counterexample: a concrete agent 600 units above the player
(`y - player.y = -600 < -80`) is respawned by the regulator to
`y - player.y = -740 < 0`, refuting the claimed `y - player.y >= 0`. -/
theorem C1_counterexample :
    c1car.y - c1player.y < -80 ∧
    ¬ (0 ≤ (updateRubberBand c1car c1player 0 0).y - c1player.y) := by
  with_unfolding_all decide

/-- C1 (amended): for an agent with `y - player.y < -80` and random draws in
`[0,1)`, one regulator pass relocates it 740 to 1040 units ABOVE the player
(`y - player.y` lands in `(-1040, -740]`, which is "ahead" since smaller `y`
is forward — not `y - player.y >= 0`), redraws `lane = ⌊3·r2⌋ ∈ {0,1,2}`,
sets `targetLane = lane`, forces CRUISE, clears the player-behind flag and
resets the velocity multiplier to 1.0. -/
theorem C1_theorem (a : AICar) (player : Player) (r1 r2 : ℚ)
    (hd : a.y - player.y < -80)
    (hr1 : 0 ≤ r1) (hr1b : r1 < 1) (hr2 : 0 ≤ r2) (hr2b : r2 < 1) :
    (updateRubberBand a player r1 r2).y - player.y ≤ -740 ∧
    -1040 < (updateRubberBand a player r1 r2).y - player.y ∧
    (updateRubberBand a player r1 r2).lane = ⌊r2 * 3⌋ ∧
    0 ≤ (updateRubberBand a player r1 r2).lane ∧
    (updateRubberBand a player r1 r2).lane ≤ 2 ∧
    (updateRubberBand a player r1 r2).targetLane
      = (updateRubberBand a player r1 r2).lane ∧
    (updateRubberBand a player r1 r2).state = AIState.CRUISE ∧
    (updateRubberBand a player r1 r2).playerBehind = false ∧
    (updateRubberBand a player r1 r2).rubberBandMult = 1.0 := by
  have hnot : ¬ (a.y - player.y > 220) := by linarith
  have hlow : (0 : ℤ) ≤ ⌊r2 * 3⌋ := by
    rw [Int.le_floor]
    push_cast
    nlinarith
  have hhigh : ⌊r2 * 3⌋ ≤ 2 := by
    have h3 : ⌊r2 * 3⌋ < 3 := by
      rw [Int.floor_lt]
      push_cast
      nlinarith
    omega
  unfold updateRubberBand respawnAbove
  dsimp only
  rw [if_neg hnot, if_pos hd]
  refine ⟨by ring_nf; linarith, by ring_nf; nlinarith, rfl, hlow, hhigh, rfl, rfl, rfl, rfl⟩

/-- C1 witness: the amended reset applied to a concrete car/player pair. -/
theorem C1_witness :
    (updateRubberBand c1car c1player (1/2) (1/2)).y - c1player.y ≤ -740 ∧
    (updateRubberBand c1car c1player (1/2) (1/2)).lane = 1 ∧
    (updateRubberBand c1car c1player (1/2) (1/2)).state = AIState.CRUISE := by
  have h := C1_theorem c1car c1player (1/2) (1/2)
    (by with_unfolding_all decide) (by norm_num) (by norm_num) (by norm_num) (by norm_num)
  refine ⟨h.1, ?_, h.2.2.2.2.2.2.1⟩
  rw [h.2.2.1]
  with_unfolding_all decide

end Neon

namespace Neon

/-! ### Claim C2 — hazard scanner -/

def c2car : AICar := AICar.make 0 600 [100, 200, 300] 0 0
def c2obs : Obstacle := ⟨120, 600, 0⟩

/-- C2 counterexample: an obstacle 20 units from the lane-0 center (which is
also the agent's `x`) is inside the trigger scan's `0.6·width` threshold
(20 < 21.6) but outside the claimed `0.5·width` threshold (20 ≥ 18): the
scanner reports the agent's current lane blocked although the claimed
condition is false. -/
theorem C2_counterexample :
    scanObstacle c2car [c2obs] = true ∧
    c2car.x = c2car.laneCenters.getD c2car.lane.toNat 0 ∧
    ¬ (|c2obs.x - c2car.laneCenters.getD c2car.lane.toNat 0| <
         c2car.width * 0.5 + c2obs.width * 0.4 ∧
       c2car.y - c2car.lookAhead ≤ c2obs.y ∧ c2obs.y ≤ c2car.y + c2car.height) := by
  with_unfolding_all decide

/-- C2 (amended): the per-lane hazard check used by the dodge planner
reports lane `l` blocked exactly when some obstacle is horizontally closer
to the lane center than `selfWidth*0.5 + obstacleWidth*0.4` and vertically
strictly inside `(self.y - lookAhead, self.y + selfHeight)`; the
current-lane trigger scan (`_scanObstacle`) instead tests against the
agent's current `x` with the wider factor `0.6`, not `0.5`. -/
theorem C2_theorem (a : AICar) (l : ℤ) (obstacles : List Obstacle) :
    (laneBlocked a l obstacles = true ↔
      ∃ o ∈ obstacles,
        |o.x - a.laneCenters.getD l.toNat 0| < a.width * 0.5 + o.width * 0.4 ∧
        a.y - a.lookAhead < o.y ∧ o.y < a.y + a.height) ∧
    (scanObstacle a obstacles = true ↔
      ∃ o ∈ obstacles,
        |o.x - a.x| < a.width * 0.6 + o.width * 0.4 ∧
        a.y - a.lookAhead < o.y ∧ o.y < a.y + a.height) := by
  constructor
  · simp [laneBlocked, List.any_eq_true, Bool.and_eq_true, decide_eq_true_eq, and_assoc]
  · simp [scanObstacle, List.any_eq_true, Bool.and_eq_true, decide_eq_true_eq, and_assoc]

/-! ### Claim C5 — lane occupancy query -/

/-- C5 (confirmed): the occupancy query answers true exactly when some peer
other than self is within 80 vertical units and either within 44 horizontal
units of the queried lane's center or has `targetLane` equal to the queried
lane — so a peer mid lane-change counts by intent alone. -/
theorem C5_theorem (a : AICar) (l : ℤ) (peers : List AICar) :
    laneOccupied a l peers = true ↔
      ∃ p ∈ peers, p ≠ a ∧ |p.y - a.y| < 80 ∧
        (|p.x - a.laneCenters.getD l.toNat 0| < 44 ∨ p.targetLane = l) := by
  simp [laneOccupied, List.any_eq_true, Bool.and_eq_true, Bool.or_eq_true,
    decide_eq_true_eq, and_assoc]

end Neon

namespace Neon

/-! ### Claim C3 — personality traits -/

def c3car : AICar := AICar.make 0 600 [60, 160, 260] 0 (5/6)
def c3player : Player := ⟨60, 600, 0⟩

/-- C3 counterexample: a concrete agent constructed with
`reactionTime = 0.1` has `reactionTime = 0.07` after one update at
`gameSpeed = 600` — the update rescales `reactionTime`, so the trait is not
immutable. -/
theorem C3_counterexample :
    c3car.reactionTime = 0.1 ∧
    (update c3car 0 600 c3player [] [] 0 0).reactionTime = 0.07 ∧
    (update c3car 0 600 c3player [] [] 0 0).reactionTime ≠ c3car.reactionTime := by
  with_unfolding_all decide

/-- C3 (amended): `aggression` is drawn once at construction in
`[0.4, 0.95)` and is never modified by `update`; `reactionTime` is drawn in
`[0, 0.12)` but every `update` call rescales it to
`max 0 (reactionTime · (1 - speedT·0.3))` with
`speedT = min ((gameSpeed-200)/400) 1`. -/
theorem C3_theorem (lane : ℤ) (y : ℚ) (lc : List ℚ) (ra rr : ℚ)
    (hra : 0 ≤ ra) (hrab : ra < 1) (hrr : 0 ≤ rr) (hrrb : rr < 1)
    (a : AICar) (dt gameSpeed : ℚ) (player : Player)
    (obstacles : List Obstacle) (peers : List AICar) (r1 r2 : ℚ) :
    (0.4 ≤ (AICar.make lane y lc ra rr).aggression ∧
      (AICar.make lane y lc ra rr).aggression < 0.95) ∧
    (0 ≤ (AICar.make lane y lc ra rr).reactionTime ∧
      (AICar.make lane y lc ra rr).reactionTime < 0.12) ∧
    (update a dt gameSpeed player obstacles peers r1 r2).aggression = a.aggression ∧
    (update a dt gameSpeed player obstacles peers r1 r2).reactionTime
      = max 0 (a.reactionTime * (1 - min ((gameSpeed - 200) / 400) 1 * 0.3)) := by
  refine ⟨⟨?_, ?_⟩, ⟨?_, ?_⟩, update_aggression a dt gameSpeed player obstacles peers r1 r2,
    update_reactionTime a dt gameSpeed player obstacles peers r1 r2⟩
  · show (0.4 : ℚ) ≤ 0.4 + ra * 0.55
    nlinarith
  · show (0.4 : ℚ) + ra * 0.55 < 0.95
    nlinarith
  · show (0 : ℚ) ≤ rr * 0.12
    nlinarith
  · show rr * (0.12 : ℚ) < 0.12
    nlinarith

/-- C3 witness: the amended statement at a concrete construction and a
concrete update call. -/
theorem C3_witness :
    (0.4 ≤ c3car.aggression ∧ c3car.aggression < 0.95) ∧
    (update c3car 0 600 c3player [] [] 0 0).aggression = c3car.aggression := by
  have h := C3_theorem 0 600 [60, 160, 260] 0 (5/6)
    (by norm_num) (by norm_num) (by norm_num) (by norm_num)
    c3car 0 600 c3player [] [] 0 0
  exact ⟨h.1, h.2.2.1⟩

/-! ### Claim C4 — lane-change cooldown duration -/

def c4car : AICar := AICar.make 0 600 [60, 160, 260] 0 0
def c4player : Player := ⟨60, 600, 0⟩
def c4obs : Obstacle := ⟨60, 600, 10⟩

/-- C4 counterexample: at `gameSpeed = 600` a concrete update performs a
lane change (dodging an obstacle on the agent's lane) and the cooldown it
commits is 1 second — not in the claimed 0.75–0.8 band. -/
theorem C4_counterexample :
    (update c4car 0 600 c4player [c4obs] [] 0 0).targetLane = 1 ∧
    c4car.targetLane = 0 ∧
    (update c4car 0 600 c4player [c4obs] [] 0 0).laneChangeCooldown = 1 ∧
    ¬ ((update c4car 0 600 c4player [c4obs] [] 0 0).laneChangeCooldown ≤ 0.8) := by
  with_unfolding_all decide

/-- C4 (amended): the cooldown duration any lane change committed during an
update uses is recomputed by that update as
`max 0.8 (1.5 - speedT·0.5) = 1.5 - speedT·0.5`, which is at least 1.0
second for every `gameSpeed` (so the nominal value is 1.5 s at base speed,
shortened to 1.0 s at the speed ceiling; the constructor's 0.75 s and the
0.8 s floor never take effect); a successful `_changeLane` commits exactly
the current `LANE_CHANGE_COOLDOWN` field. -/
theorem C4_theorem (a : AICar) (dt gameSpeed : ℚ) (player : Player)
    (obstacles : List Obstacle) (peers : List AICar) (r1 r2 : ℚ) :
    (update a dt gameSpeed player obstacles peers r1 r2).LANE_CHANGE_COOLDOWN
      = 1.5 - min ((gameSpeed - 200) / 400) 1 * 0.5 ∧
    1 ≤ (update a dt gameSpeed player obstacles peers r1 r2).LANE_CHANGE_COOLDOWN ∧
    (∀ (n : ℤ) (b : AICar), (changeLane n b).targetLane ≠ b.targetLane →
      (changeLane n b).laneChangeCooldown = b.LANE_CHANGE_COOLDOWN) := by
  have hmin : min ((gameSpeed - 200) / 400) 1 ≤ 1 := min_le_right _ _
  have hval : (1 : ℚ) ≤ 1.5 - min ((gameSpeed - 200) / 400) 1 * 0.5 := by nlinarith
  have heq : (update a dt gameSpeed player obstacles peers r1 r2).LANE_CHANGE_COOLDOWN
      = 1.5 - min ((gameSpeed - 200) / 400) 1 * 0.5 := by
    rw [update_LANE_CHANGE_COOLDOWN]
    exact max_eq_right (by linarith)
  refine ⟨heq, by rw [heq]; exact hval, ?_⟩
  intro n b hne
  rcases changeLane_cases n b with hc | ⟨-, hc⟩
  · exact absurd (congrArg AICar.targetLane hc) hne
  · rw [hc]

/-- C4 witness: the amended statement at a concrete update and a concrete
committed lane change. -/
theorem C4_witness :
    (update c4car 0 600 c4player [c4obs] [] 0 0).LANE_CHANGE_COOLDOWN = 1 ∧
    (changeLane 1 c4car).laneChangeCooldown = c4car.LANE_CHANGE_COOLDOWN := by
  have h := C4_theorem c4car 0 600 c4player [c4obs] [] 0 0
  constructor
  · rw [h.1]
    with_unfolding_all decide
  · exact h.2.2 1 c4car (by with_unfolding_all decide)

end Neon

namespace Neon

/-! ### Claim C6 — cooldown enforcement -/

def c6car : AICar :=
  { AICar.make 0 500 [60, 160, 260] 0 0 with laneChangeCooldown := 0.5 }
def c6player : Player := ⟨160, 560, 1⟩
def c6obs : Obstacle := ⟨60, 500, 10⟩

/-- C6 (confirmed): while `laneChangeCooldown > 0`, the dodge, overtake and
block planners leave `targetLane` unchanged, and so does a whole think
cycle, whatever state transition it attempts. -/
theorem C6_theorem (a : AICar) (player : Player) (obstacles : List Obstacle)
    (peers : List AICar) (h : a.laneChangeCooldown > 0) :
    (dodge a obstacles peers).targetLane = a.targetLane ∧
    (planOvertake a player peers).targetLane = a.targetLane ∧
    (planBlock a player peers).targetLane = a.targetLane ∧
    (think a player obstacles peers).targetLane = a.targetLane :=
  ⟨congrArg AICar.targetLane (dodge_cooldown_noop a obstacles peers h),
   congrArg AICar.targetLane (planOvertake_cooldown_noop a player peers h),
   congrArg AICar.targetLane (planBlock_cooldown_noop a player peers h),
   think_cooldown_targetLane a player obstacles peers h⟩

/-- C6 witness: a concrete mid-cooldown agent facing an obstacle that would
otherwise trigger a dodge keeps its `targetLane` through a think cycle. -/
theorem C6_witness :
    (think c6car c6player [c6obs] []).targetLane = c6car.targetLane ∧
    (dodge c6car [c6obs] []).targetLane = c6car.targetLane := by
  have h := C6_theorem c6car c6player [c6obs] [] (by with_unfolding_all decide)
  exact ⟨h.2.2.2, h.1⟩

/-! ### Claim C7 — lane bound invariant -/

def c7ops : List Op :=
  [Op.upd (1/60) 300 ⟨60, 600, 0⟩ [⟨60, 500, 10⟩] [] (1/2) (1/2),
   Op.scr 5,
   Op.reg ⟨60, 600, 0⟩ 0 (9/10)]

/-- C7 (confirmed): an agent constructed with a lane in {0,1,2} keeps both
`lane` and `targetLane` in {0,1,2} under every sequence of update, scroll
and rubber-band regulator operations whose random draws lie in `[0,1)`. -/
theorem C7_theorem (lane : ℤ) (y : ℚ) (lc : List ℚ) (ra rr : ℚ) (ops : List Op)
    (h0 : 0 ≤ lane) (h2 : lane ≤ 2) (hv : ∀ op ∈ ops, op.validRand) :
    laneInv (runOps ops (AICar.make lane y lc ra rr)) :=
  runOps_laneInv ops (AICar.make lane y lc ra rr) hv
    (make_laneInv lane y lc ra rr h0 h2)

/-- C7 witness: a concrete three-operation run (update, scroll, regulator
pass with a respawn draw) keeps the lanes in range. -/
theorem C7_witness :
    laneInv (runOps c7ops (AICar.make 1 (-120) [60, 160, 260] (1/2) (1/2))) :=
  C7_theorem 1 (-120) [60, 160, 260] (1/2) (1/2) c7ops (by decide) (by decide)
    (by
      intro op hop
      fin_cases hop
      · exact ⟨by norm_num, by norm_num⟩
      · trivial
      · exact ⟨by norm_num, by norm_num⟩)

/-! ### Claim C9 — dodge priority over catch-up -/

def c9car : AICar := AICar.make 0 500 [60, 160, 260] 0 0
def c9player : Player := ⟨60, 600, 0⟩
def c9obs : Obstacle := ⟨60, 500, 10⟩

/-- C9 (confirmed): an agent not already in DODGE that simultaneously sees
its current position hazard-blocked and is more than 40 units behind on the
catch-up test enters DODGE, not ACCELERATE. -/
theorem C9_theorem (a : AICar) (player : Player) (obstacles : List Obstacle)
    (peers : List AICar) (h1 : a.state ≠ AIState.DODGE)
    (h2 : scanObstacle a obstacles = true) (h3 : a.y - player.y < -40) :
    (think a player obstacles peers).state = AIState.DODGE ∧
    (think a player obstacles peers).state ≠ AIState.ACCELERATE := by
  have hs := think_dodge_priority a player obstacles peers h1 h2
  refine ⟨hs, ?_⟩
  rw [hs]
  decide

/-- C9 witness: a concrete agent satisfying both the dodge and the catch-up
condition ends the think cycle in DODGE. -/
theorem C9_witness :
    (think c9car c9player [c9obs] []).state = AIState.DODGE :=
  (C9_theorem c9car c9player [c9obs] []
    (by with_unfolding_all decide)
    (by with_unfolding_all rfl)
    (by with_unfolding_all decide)).1

/-! ### Claim C10 — lane-change commit guard -/

def c10car : AICar := AICar.make 0 500 [60, 160, 260] 0 0

/-- C10 (confirmed): calling `_changeLane` with the current `targetLane` or
with an index outside {0,1,2} is a complete no-op (the record is unchanged,
so the cooldown is not restarted); otherwise `targetLane` becomes the new
in-range lane, which differs from the old one, and the cooldown field is
set to `LANE_CHANGE_COOLDOWN`. -/
theorem C10_theorem (a : AICar) (n : ℤ) :
    ((n < 0 ∨ n > 2 ∨ n = a.targetLane) → changeLane n a = a) ∧
    (¬ (n < 0 ∨ n > 2 ∨ n = a.targetLane) →
      (changeLane n a).targetLane = n ∧ n ≠ a.targetLane ∧ 0 ≤ n ∧ n ≤ 2 ∧
      (changeLane n a).laneChangeCooldown = a.LANE_CHANGE_COOLDOWN) := by
  constructor
  · intro h
    unfold changeLane
    rw [if_pos h]
  · intro h
    have h2 := h
    push_neg at h2
    unfold changeLane
    rw [if_neg h]
    exact ⟨rfl, h2.2.2, h2.1, h2.2.1, rfl⟩

/-- C10 witness: a no-op call with an out-of-range lane, a no-op call with
the current target lane, and a committing call, all on a concrete agent. -/
theorem C10_witness :
    changeLane 5 c10car = c10car ∧
    changeLane 0 c10car = c10car ∧
    (changeLane 2 c10car).targetLane = 2 ∧
    (changeLane 2 c10car).laneChangeCooldown = c10car.LANE_CHANGE_COOLDOWN := by
  refine ⟨(C10_theorem c10car 5).1 (by decide), (C10_theorem c10car 0).1 ?_, ?_, ?_⟩
  · right; right
    with_unfolding_all decide
  · exact ((C10_theorem c10car 2).2 (by with_unfolding_all decide)).1
  · exact ((C10_theorem c10car 2).2 (by with_unfolding_all decide)).2.2.2.2

end Neon

namespace Neon

/-! ### Claim C8 — aggression thresholds -/

def c8carA : AICar := AICar.make 0 500 [60, 160, 260] (10/11) 0
def c8carB : AICar := AICar.make 0 500 [60, 160, 260] (6/11) 0
def c8playerNear : Player := ⟨60, 500, 0⟩
def c8playerAhead : Player := ⟨60, 600, 0⟩

/-- C8 counterexample: an agent with aggression 0.9, block cooldown 0, not
in BLOCK, and the player 100 units below (so within the claimed 140-unit
window) enters ACCELERATE, not BLOCK — the catch-up test
`y - player.y < -40` fires first. -/
theorem C8_counterexample :
    |c8carA.y - c8playerAhead.y| < 140 ∧
    c8carA.aggression = 0.9 ∧
    c8carA.state ≠ AIState.BLOCK ∧
    c8carA.blockTimer ≤ 0 ∧
    (think c8carA c8playerAhead [] []).state = AIState.ACCELERATE ∧
    (think c8carA c8playerAhead [] []).state ≠ AIState.BLOCK := by
  with_unfolding_all decide

/-- C8 (amended): in a think cycle with the player within 140 vertical
units, PROVIDED no higher-priority branch fires (the hazard scan is false
and `y - player.y ≥ -40`): an agent with aggression 0.9, not in BLOCK,
block cooldown elapsed, enters BLOCK with state timer 1.4 and block
cooldown 3.0; an otherwise-identical agent with aggression 0.7, not in
OVERTAKE, enters OVERTAKE with state timer 1.0 instead. -/
theorem C8_theorem (a : AICar) (player : Player) (obstacles : List Obstacle)
    (peers : List AICar)
    (hscan : scanObstacle a obstacles = false)
    (hdelta : ¬ (a.y - player.y < -40))
    (hvert : |a.y - player.y| < 140) :
    (a.aggression = 0.9 → a.state ≠ AIState.BLOCK → a.blockTimer ≤ 0 →
      (think a player obstacles peers).state = AIState.BLOCK ∧
      (think a player obstacles peers).stateTimer = 1.4 ∧
      (think a player obstacles peers).blockTimer = 3.0) ∧
    (a.aggression = 0.7 → a.state ≠ AIState.OVERTAKE →
      (think a player obstacles peers).state = AIState.OVERTAKE ∧
      (think a player obstacles peers).stateTimer = 1.0) := by
  have hscanb : scanObstacle { a with reactionTimer := a.reactionTime } obstacles = false :=
    hscan
  have hc1 : ¬ (scanObstacle { a with reactionTimer := a.reactionTime } obstacles = true ∧
      a.state ≠ AIState.DODGE) := by
    rw [hscanb]
    exact fun hcc => Bool.false_ne_true hcc.1
  unfold think
  dsimp only
  constructor
  · intro hagg hst hbt
    have hc3 : |a.y - player.y| < 140 ∧ a.aggression > 0.82 ∧
        a.state ≠ AIState.BLOCK ∧ a.blockTimer ≤ 0 :=
      ⟨hvert, by rw [hagg]; norm_num, hst, hbt⟩
    rw [if_neg hc1, if_neg hdelta, if_pos hc3]
    exact ⟨((planBlock_pres _ player peers).2.1).trans rfl,
           ((planBlock_pres _ player peers).2.2.1).trans rfl,
           ((planBlock_pres _ player peers).2.2.2.1).trans rfl⟩
  · intro hagg hst
    have hc3n : ¬ (|a.y - player.y| < 140 ∧ a.aggression > 0.82 ∧
        a.state ≠ AIState.BLOCK ∧ a.blockTimer ≤ 0) :=
      fun hcc => absurd hcc.2.1 (by rw [hagg]; norm_num)
    have hc4 : |a.y - player.y| < 140 ∧ a.aggression > 0.65 ∧
        a.state ≠ AIState.OVERTAKE :=
      ⟨hvert, by rw [hagg]; norm_num, hst⟩
    rw [if_neg hc1, if_neg hdelta, if_neg hc3n, if_pos hc4]
    exact ⟨((planOvertake_pres _ player peers).2.1).trans rfl,
           ((planOvertake_pres _ player peers).2.2.1).trans rfl⟩

/-- C8 witness: the amended statement at two concrete agents differing only
in aggression (0.9 enters BLOCK, 0.7 enters OVERTAKE), player alongside. -/
theorem C8_witness :
    (think c8carA c8playerNear [] []).state = AIState.BLOCK ∧
    (think c8carA c8playerNear [] []).blockTimer = 3.0 ∧
    (think c8carB c8playerNear [] []).state = AIState.OVERTAKE ∧
    (think c8carB c8playerNear [] []).stateTimer = 1.0 := by
  have hA := (C8_theorem c8carA c8playerNear [] []
    rfl (by with_unfolding_all decide) (by with_unfolding_all decide)).1
    (by with_unfolding_all decide) (by with_unfolding_all decide)
    (by with_unfolding_all decide)
  have hB := (C8_theorem c8carB c8playerNear [] []
    rfl (by with_unfolding_all decide) (by with_unfolding_all decide)).2
    (by with_unfolding_all decide) (by with_unfolding_all decide)
  exact ⟨hA.1, hA.2.2, hB.1, hB.2⟩

end Neon
